import Mathlib

/-!
Verification development for the DQ Sentinel repository.

The repository ships a React frontend (src/frontend) and documents a FastAPI
backend rules engine (backend/server.py) that is not present in the source
tree; only the spec, README and PRD describe it.  The engine (Dataset model,
the ten DQ rules, the Rule Runner, the Scorer and the Report Formatter) is
therefore modelled here from the spec, while the frontend behaviours
(Run History progress bar, Dashboard drag-and-drop) are translated directly
from the JSX sources.
-/

/-- Status of one rule result: PASS, FAIL or SKIP. -/
inductive Status where
  | PASS
  | FAIL
  | SKIP
deriving DecidableEq, Repr

/-- A row is a mapping from column name to a raw string value or null.
A missing key and a null value are both represented as absence. -/
abbrev Row : Type := List (String × Option String)

/-- Modelled from the spec: the in-memory Dataset — ordered column names and
ordered rows mapping column name to raw string or null. -/
structure Dataset where
  columns : List String
  rows : List Row

/-- Derived row count of a dataset. -/
def Dataset.row_count (ds : Dataset) : Nat := ds.rows.length

/-- Modelled from the spec: a single rule verdict. -/
structure RuleResult where
  rule_name : String
  status : Status
  metric : String
  threshold : String
  description : String
  sample_rows : List Row
deriving DecidableEq, Repr

/-- Modelled from the spec: aggregate counts and score of a run. -/
structure RunSummary where
  total_rules : Nat
  passed : Nat
  failed : Nat
  skipped : Nat
  score : Int
deriving DecidableEq, Repr

/-- Modelled from the spec: a Run — identifier, dataset reference, timestamp,
lifecycle status, summary and the ordered rule results. -/
structure Run where
  run_id : String
  dataset_id : String
  created_at : String
  status : String
  summary : RunSummary
  results : List RuleResult

/-- Cell lookup by exact column name; missing key and null both yield none. -/
def getCell (row : Row) (col : String) : Option String :=
  match row.find? (fun e => e.1 == col) with
  | some e => e.2
  | none => none

/-- All values of one column, in row order. -/
def colValues (ds : Dataset) (col : String) : List (Option String) :=
  ds.rows.map (fun r => getCell r col)

/-- ASCII lowercase of a character. -/
def lowerChar (c : Char) : Char :=
  if 65 <= c.toNat && c.toNat <= 90 then Char.ofNat (c.toNat + 32) else c

/-- True when `pat` occurs as a contiguous sublist of `hay`. -/
def containsSub : List Char → List Char → Bool
  | hay, pat =>
    pat.isPrefixOf hay ||
      (match hay with
       | [] => false
       | _ :: t => containsSub t pat)

/-- Split a character list on a separator character. -/
def splitOnChar (sep : Char) : List Char → List (List Char)
  | [] => [[]]
  | c :: cs =>
    let r := splitOnChar sep cs
    if c == sep then [] :: r
    else
      match r with
      | h :: t => (c :: h) :: t
      | [] => [[c]]

/-- Whether `s` ends with the given suffix, compared exactly. -/
def strEndsWith (s suffix : String) : Bool :=
  suffix.data.isSuffixOf s.data

/-- True when `frag` occurs as a substring of `s` lowercased. -/
def containsFrag (s frag : String) : Bool :=
  containsSub (s.data.map lowerChar) frag.data

/-- Modelled from the spec: shared column-selection heuristic — first column
whose lowercased name contains one of the candidate fragments. -/
def findColumn (ds : Dataset) (frags : List String) : Option String :=
  ds.columns.find? (fun c => frags.any (fun f => containsFrag c f))

/-- A value counts as missing when absent/null or the empty string. -/
def isMissing (v : Option String) : Bool :=
  match v with
  | none => true
  | some s => s == ""

/-- Parse a list of decimal digit characters; none if empty or non-digit. -/
def digitsToNat (cs : List Char) : Option Nat :=
  match cs with
  | [] => none
  | _ =>
    cs.foldl
      (fun acc c =>
        acc.bind (fun n => if c.isDigit then some (n * 10 + (c.toNat - 48)) else none))
      (some 0)

/-- Parse a decimal numeral (optional minus sign, optional fraction part)
into a rational; none when the string is not numeric. -/
def parseNum (s : String) : Option ℚ :=
  let (neg, body) :=
    match s.data with
    | '-' :: rest => (true, rest)
    | cs => (false, cs)
  let parts := splitOnChar '.' body
  let mag : Option ℚ :=
    match parts with
    | [intPart] => (digitsToNat intPart).map (fun n => (n : ℚ))
    | [intPart, fracPart] =>
      match digitsToNat intPart, digitsToNat fracPart with
      | some i, some f => some ((i : ℚ) + (f : ℚ) / ((10 : ℚ) ^ fracPart.length))
      | _, _ => none
    | _ => none
  mag.map (fun q => if neg then -q else q)

/-- Fraction of rows whose value in `col` is missing or empty. -/
def nullFraction (ds : Dataset) (col : String) : ℚ :=
  if ds.rows.length = 0 then 0
  else ((colValues ds col).countP isMissing : ℚ) / (ds.rows.length : ℚ)

/-- Modelled from the spec: email shape local@domain.tld — one '@', nonempty
local part, domain with at least two nonempty dot-separated labels. -/
def validEmail (s : String) : Bool :=
  match splitOnChar '@' s.data with
  | [local_, domain] =>
    !local_.isEmpty &&
      (let labels := splitOnChar '.' domain
       labels.length >= 2 && labels.all (fun l => !l.isEmpty))
  | _ => false

/-- Modelled from the spec: a phone is valid when it carries exactly 10
digits once separators are dropped. -/
def validPhone (s : String) : Bool :=
  (s.data.filter Char.isDigit).length == 10 &&
    s.data.all (fun c => c.isDigit || c == '-' || c == ' ' || c == '(' || c == ')' || c == '+')

/-- Modelled from the spec: a zip is exactly 5 digits. -/
def validZip (s : String) : Bool :=
  s.data.length == 5 && s.data.all Char.isDigit

/-- A (year, month, day) date triple. -/
def DateTriple : Type := Nat × Nat × Nat

/-- Modelled from the spec: parse a YYYY-MM-DD date string. -/
def parseDate (s : String) : Option DateTriple :=
  match splitOnChar '-' s.data with
  | [y, m, d] =>
    match digitsToNat y, digitsToNat m, digitsToNat d with
    | some yn, some mn, some dn =>
      if 1 <= mn && mn <= 12 && 1 <= dn && dn <= 31 then some (yn, mn, dn) else none
    | _, _, _ => none
  | _ => none

/-- Modelled from the spec: the fixed evaluation date used by the Date
Validity rule in place of the wall clock (the PRD snapshot date). -/
def evalToday : DateTriple := (2026, 2, 2)

/-- Strict lexicographic order on date triples. -/
def dateAfter (a b : DateTriple) : Bool :=
  b.1 < a.1 || (b.1 == a.1 && (b.2.1 < a.2.1 || (b.2.1 == a.2.1 && b.2.2 < a.2.2)))

/-- Modelled from the spec: allowed order-status categorical values. -/
def allowedStatuses : List String :=
  ["pending", "shipped", "delivered", "cancelled", "returned"]

/-- Candidate name fragments for the detected numeric column. -/
def numericFrags : List String := ["price", "quantity", "amount", "qty", "total"]

/-- Non-empty values of a column parsed as rationals, unparseable ones dropped. -/
def numericValues (ds : Dataset) (col : String) : List ℚ :=
  (colValues ds col).filterMap (fun ov => ov.bind parseNum)

/-- Linear-interpolation quantile (type-7) of an already sorted list. -/
def quantile (sorted : List ℚ) (p : ℚ) : ℚ :=
  let n := sorted.length
  let h : ℚ := p * ((n : ℚ) - 1)
  let i : Nat := (⌊h⌋).toNat
  let lo := sorted.getD i 0
  let hi := sorted.getD (i + 1) lo
  lo + (h - (i : ℚ)) * (hi - lo)

/-- A rule: name plus evaluation returning a RuleResult or an internal
failure message. Modelled from the spec design note: each rule yields a
Result type, the Runner maps failures to SKIP. -/
structure Rule where
  name : String
  eval : Dataset → Option Nat → Except String RuleResult

/-- Cap on offending sample rows kept in a RuleResult. -/
def sampleCap : Nat := 5

/-- Modelled from the spec: Null Rate rule — FAIL when any column exceeds a
5% fraction of missing-or-empty values. -/
def ruleNullRate : Rule :=
  { name := "Null Rate",
    eval := fun ds _ =>
      let worst := ds.columns.find? (fun c => decide ((1 : ℚ) / 20 < nullFraction ds c))
      .ok
        { rule_name := "Null Rate",
          status :=
            if ds.columns.any (fun c => decide ((1 : ℚ) / 20 < nullFraction ds c)) then
              .FAIL
            else .PASS,
          metric :=
            match worst with
            | some c => "null fraction " ++ toString (nullFraction ds c) ++ " in column " ++ c
            | none => "all columns within threshold",
          threshold := "5% nulls per column",
          description := "Checks the fraction of missing or empty values per column",
          sample_rows :=
            match worst with
            | some c => (ds.rows.filter (fun r => isMissing (getCell r c))).take sampleCap
            | none => [] } }

/-- Modelled from the spec: Duplicate Rows rule — FAIL when any exact
full-row duplicate exists. -/
def ruleDuplicateRows : Rule :=
  { name := "Duplicate Rows",
    eval := fun ds _ =>
      let dupCount := ds.rows.length - ds.rows.dedup.length
      .ok
        { rule_name := "Duplicate Rows",
          status := if 0 < dupCount then .FAIL else .PASS,
          metric := toString dupCount ++ " duplicate rows",
          threshold := "0 duplicates",
          description := "Detects exact-match duplicate rows across all columns",
          sample_rows :=
            ((ds.rows.filter (fun r => 1 < ds.rows.count r)).dedup).take sampleCap } }

/-- Modelled from the spec: Unique Key rule — FAIL when the detected ID-like
column holds repeated values; SKIP when no ID column is found. -/
def ruleUniqueKey : Rule :=
  { name := "Unique Key",
    eval := fun ds _ =>
      let idCol := findColumn ds ["id"]
      .ok
        { rule_name := "Unique Key",
          status :=
            match idCol with
            | none => .SKIP
            | some c =>
              if (colValues ds c).dedup.length < (colValues ds c).length then .FAIL else .PASS,
          metric :=
            match idCol with
            | none => "no ID column detected"
            | some c =>
              toString ((colValues ds c).length - (colValues ds c).dedup.length) ++
                " repeated key values in " ++ c,
          threshold := "all key values unique",
          description := "Checks uniqueness of the detected ID column",
          sample_rows :=
            match idCol with
            | none => []
            | some c =>
              (ds.rows.filter (fun r => 1 < (colValues ds c).count (getCell r c))).take
                sampleCap } }

/-- True when an optional cell holds a non-empty value that is negative or
not numeric. -/
def badNumeric (ov : Option String) : Bool :=
  match ov with
  | none => false
  | some s =>
    if s == "" then false
    else
      match parseNum s with
      | none => true
      | some q => decide (q < 0)

/-- Modelled from the spec: Numeric Range rule — FAIL when the detected
numeric column holds a negative or non-numeric value; SKIP when absent. -/
def ruleNumericRange : Rule :=
  { name := "Numeric Range",
    eval := fun ds _ =>
      let ncol := findColumn ds numericFrags
      .ok
        { rule_name := "Numeric Range",
          status :=
            match ncol with
            | none => .SKIP
            | some c => if (colValues ds c).any badNumeric then .FAIL else .PASS,
          metric :=
            match ncol with
            | none => "no numeric column detected"
            | some c => toString ((colValues ds c).countP badNumeric) ++ " out-of-range values",
          threshold := "value >= 0 and numeric",
          description := "Validates the detected numeric column for negatives and non-numbers",
          sample_rows :=
            match ncol with
            | none => []
            | some c => (ds.rows.filter (fun r => badNumeric (getCell r c))).take sampleCap } }

/-- True when an optional cell holds a non-empty value failing `valid`. -/
def badFormat (valid : String → Bool) (ov : Option String) : Bool :=
  match ov with
  | none => false
  | some s => s != "" && !(valid s)

/-- Modelled from the spec: Email Format rule — FAIL when any non-empty
value of the detected email column fails the email pattern. -/
def ruleEmailFormat : Rule :=
  { name := "Email Format",
    eval := fun ds _ =>
      let ecol := findColumn ds ["email"]
      .ok
        { rule_name := "Email Format",
          status :=
            match ecol with
            | none => .SKIP
            | some c => if (colValues ds c).any (badFormat validEmail) then .FAIL else .PASS,
          metric :=
            match ecol with
            | none => "no email column detected"
            | some c => toString ((colValues ds c).countP (badFormat validEmail)) ++ " invalid emails",
          threshold := "local@domain.tld",
          description := "Validates values of the detected email column against the email shape",
          sample_rows :=
            match ecol with
            | none => []
            | some c =>
              (ds.rows.filter (fun r => badFormat validEmail (getCell r c))).take sampleCap } }

/-- Whether an optional column has a value failing `valid`. -/
def colHasBad (ds : Dataset) (oc : Option String) (valid : String → Bool) : Bool :=
  match oc with
  | none => false
  | some c => (colValues ds c).any (badFormat valid)

/-- Modelled from the spec: Phone/ZIP Format rule — FAIL when any non-empty
value of the detected phone or zip columns fails its pattern; SKIP when
neither column is found. -/
def rulePhoneZipFormat : Rule :=
  { name := "Phone/ZIP Format",
    eval := fun ds _ =>
      let pcol := findColumn ds ["phone"]
      let zcol := findColumn ds ["zip", "postal"]
      .ok
        { rule_name := "Phone/ZIP Format",
          status :=
            match pcol, zcol with
            | none, none => .SKIP
            | _, _ =>
              if colHasBad ds pcol validPhone || colHasBad ds zcol validZip then .FAIL
              else .PASS,
          metric := "phone digits and zip length checks",
          threshold := "10-digit phone, 5-digit zip",
          description := "Validates detected phone and zip columns against fixed patterns",
          sample_rows := [] } }

/-- True when an optional cell holds a non-empty value that fails to parse
as a date or parses to a date after the evaluation day. -/
def badDate (ov : Option String) : Bool :=
  match ov with
  | none => false
  | some s =>
    s != "" &&
      (match parseDate s with
       | none => true
       | some d => dateAfter d evalToday)

/-- Modelled from the spec: Date Validity rule — FAIL on unparseable or
future dates in the detected date column; SKIP when absent. -/
def ruleDateValidity : Rule :=
  { name := "Date Validity",
    eval := fun ds _ =>
      let dcol := findColumn ds ["date"]
      .ok
        { rule_name := "Date Validity",
          status :=
            match dcol with
            | none => .SKIP
            | some c => if (colValues ds c).any badDate then .FAIL else .PASS,
          metric :=
            match dcol with
            | none => "no date column detected"
            | some c => toString ((colValues ds c).countP badDate) ++ " invalid or future dates",
          threshold := "parseable date, not in the future",
          description := "Parses the detected date column and rejects future dates",
          sample_rows :=
            match dcol with
            | none => []
            | some c => (ds.rows.filter (fun r => badDate (getCell r c))).take sampleCap } }

/-- True when an optional cell holds a non-empty value outside the fixed
categorical allow-list. -/
def badCategory (ov : Option String) : Bool :=
  match ov with
  | none => false
  | some s => s != "" && !(allowedStatuses.contains s)

/-- Modelled from the spec: Categorical Values rule — FAIL when the detected
status/category column holds a value outside the allow-list; SKIP when the
column is absent. -/
def ruleCategoricalValues : Rule :=
  { name := "Categorical Values",
    eval := fun ds _ =>
      let ccol := findColumn ds ["status", "category"]
      .ok
        { rule_name := "Categorical Values",
          status :=
            match ccol with
            | none => .SKIP
            | some c => if (colValues ds c).any badCategory then .FAIL else .PASS,
          metric :=
            match ccol with
            | none => "no categorical column detected"
            | some c => toString ((colValues ds c).countP badCategory) ++ " disallowed values",
          threshold := "value in fixed allow-list",
          description := "Checks the detected categorical column against the allow-list",
          sample_rows :=
            match ccol with
            | none => []
            | some c => (ds.rows.filter (fun r => badCategory (getCell r c))).take sampleCap } }

/-- Modelled from the spec: Row Count Anomaly rule — SKIP with no prior run;
otherwise FAIL exactly when the relative row-count change exceeds 30%. -/
def ruleRowCountAnomaly : Rule :=
  { name := "Row Count Anomaly",
    eval := fun ds prior =>
      .ok
        { rule_name := "Row Count Anomaly",
          status :=
            match prior with
            | none => .SKIP
            | some p =>
              if (3 : ℚ) / 10 < |((ds.row_count : ℚ) - (p : ℚ)) / (p : ℚ)| then .FAIL
              else .PASS,
          metric :=
            match prior with
            | none => "no prior run"
            | some p => "current " ++ toString ds.row_count ++ " rows vs prior " ++ toString p,
          threshold := "relative change within 30%",
          description := "Compares the row count with the most recent prior completed run",
          sample_rows := [] } }

/-- Lower IQR outlier bound of a list of values: Q1 - 1.5 * IQR. -/
def outlierLower (vs : List ℚ) : ℚ :=
  let sorted := List.insertionSort (fun a b => a ≤ b) vs
  let q1 := quantile sorted (1 / 4)
  let q3 := quantile sorted (3 / 4)
  q1 - 3 / 2 * (q3 - q1)

/-- Upper IQR outlier bound of a list of values: Q3 + 1.5 * IQR. -/
def outlierUpper (vs : List ℚ) : ℚ :=
  let sorted := List.insertionSort (fun a b => a ≤ b) vs
  let q1 := quantile sorted (1 / 4)
  let q3 := quantile sorted (3 / 4)
  q3 + 3 / 2 * (q3 - q1)

/-- Whether some value of the list falls outside the IQR outlier bounds. -/
def hasOutlier (vs : List ℚ) : Bool :=
  vs.any (fun v => decide (v < outlierLower vs) || decide (outlierUpper vs < v))

/-- Modelled from the spec: Outlier Detection rule — IQR-based bounds on the
detected numeric column; SKIP when no numeric column is found. -/
def ruleOutlierDetection : Rule :=
  { name := "Outlier Detection",
    eval := fun ds _ =>
      let ncol := findColumn ds numericFrags
      .ok
        { rule_name := "Outlier Detection",
          status :=
            match ncol with
            | none => .SKIP
            | some c => if hasOutlier (numericValues ds c) then .FAIL else .PASS,
          metric :=
            match ncol with
            | none => "no numeric column detected"
            | some c =>
              toString
                  ((numericValues ds c).countP
                    (fun v =>
                      decide (v < outlierLower (numericValues ds c)) ||
                        decide (outlierUpper (numericValues ds c) < v))) ++
                " outliers",
          threshold := "within [Q1 - 1.5*IQR, Q3 + 1.5*IQR]",
          description := "Flags values of the detected numeric column outside the IQR bounds",
          sample_rows := [] } }

/-- Errors the engine raises to its caller. -/
inductive EngineError where
  | InputError (msg : String)
deriving DecidableEq, Repr

/-- Modelled from the spec: the Runner's per-rule failure isolation — an
internal rule failure becomes a SKIP RuleResult naming the failure. -/
def isolate (ds : Dataset) (prior : Option Nat) (r : Rule) : RuleResult :=
  match r.eval ds prior with
  | .ok res => res
  | .error msg =>
    { rule_name := r.name, status := .SKIP, metric := "-", threshold := "-",
      description := "Rule execution failed: " ++ msg, sample_rows := [] }

/-- The Runner applied to an explicit rule list. -/
def runAll (rules : List Rule) (ds : Dataset) (prior : Option Nat) : List RuleResult :=
  rules.map (isolate ds prior)

/-- Modelled from the spec: the fixed canonical rule order. -/
def canonicalRules : List Rule :=
  [ruleNullRate, ruleDuplicateRows, ruleUniqueKey, ruleNumericRange, ruleEmailFormat,
    rulePhoneZipFormat, ruleDateValidity, ruleCategoricalValues, ruleRowCountAnomaly,
    ruleOutlierDetection]

/-- The Runner over an arbitrary rule list: rejects a dataset with zero
columns, otherwise evaluates every rule with failure isolation. -/
def evaluateWith (rules : List Rule) (ds : Dataset) (prior : Option Nat) :
    Except EngineError (List RuleResult) :=
  if ds.columns.isEmpty then .error (.InputError "dataset has no columns")
  else .ok (runAll rules ds prior)

/-- Modelled from the spec: `evaluate(dataset, priorRowCount)` over the ten
canonical rules. -/
def evaluate (ds : Dataset) (prior : Option Nat) : Except EngineError (List RuleResult) :=
  evaluateWith canonicalRules ds prior

/-- Count of results with a given status. -/
def countStatus (rs : List RuleResult) (st : Status) : Nat :=
  rs.countP (fun r => r.status == st)

/-- Modelled from the spec: the Scorer — `summarize(results)`. -/
def summarize (rs : List RuleResult) : RunSummary :=
  let p := countStatus rs .PASS
  let f := countStatus rs .FAIL
  let s := countStatus rs .SKIP
  { total_rules := rs.length, passed := p, failed := f, skipped := s,
    score :=
      if 0 < p + f then round ((100 * (p : ℚ)) / ((p : ℚ) + (f : ℚ))) else 100 }

/-- A JSON value tree, the structured export's document model. -/
inductive Json where
  | null
  | str (s : String)
  | num (q : ℚ)
  | arr (xs : List Json)
  | obj (fields : List (String × Json))

/-- Render a Status as its report string. -/
def statusToString (st : Status) : String :=
  match st with
  | .PASS => "PASS"
  | .FAIL => "FAIL"
  | .SKIP => "SKIP"

/-- Read a Status back from its report string. -/
def statusOfString (s : String) : Option Status :=
  if s == "PASS" then some .PASS
  else if s == "FAIL" then some .FAIL
  else if s == "SKIP" then some .SKIP
  else none

/-- Encode an optional cell value: null for missing, string otherwise. -/
def encodeCell (v : Option String) : Json :=
  match v with
  | none => Json.null
  | some s => Json.str s

/-- Encode a row as a JSON object. -/
def encodeRow (r : Row) : Json :=
  Json.obj (r.map (fun e => (e.1, encodeCell e.2)))

/-- Modelled from the spec: the structured export of one RuleResult, with
stable field names mirroring the RuleResult fields exactly. -/
def encodeRuleResult (r : RuleResult) : Json :=
  Json.obj
    [("rule_name", Json.str r.rule_name),
     ("status", Json.str (statusToString r.status)),
     ("metric", Json.str r.metric),
     ("threshold", Json.str r.threshold),
     ("description", Json.str r.description),
     ("sample_rows", Json.arr (r.sample_rows.map encodeRow))]

/-- Modelled from the spec: the structured export of the RunSummary. -/
def encodeSummary (s : RunSummary) : Json :=
  Json.obj
    [("total_rules", Json.num (s.total_rules : ℚ)),
     ("passed", Json.num (s.passed : ℚ)),
     ("failed", Json.num (s.failed : ℚ)),
     ("skipped", Json.num (s.skipped : ℚ)),
     ("score", Json.num (s.score : ℚ))]

/-- Modelled from the spec: `formatJSON(run)` — the machine-readable export
mirroring the Run and its RuleResults. -/
def formatJSON (run : Run) : Json :=
  Json.obj
    [("run_id", Json.str run.run_id),
     ("dataset_id", Json.str run.dataset_id),
     ("created_at", Json.str run.created_at),
     ("status", Json.str run.status),
     ("summary", encodeSummary run.summary),
     ("results", Json.arr (run.results.map encodeRuleResult))]

/-- Field lookup in a JSON object. -/
def getField (j : Json) (key : String) : Option Json :=
  match j with
  | Json.obj fields =>
    match fields.find? (fun e => e.1 == key) with
    | some e => some e.2
    | none => none
  | _ => none

/-- Extract a JSON string. -/
def asStr (j : Json) : Option String :=
  match j with
  | Json.str s => some s
  | _ => none

/-- Extract a JSON array. -/
def asArr (j : Json) : Option (List Json) :=
  match j with
  | Json.arr xs => some xs
  | _ => none

/-- Decode every element of a list, failing when any element fails. -/
def decodeList (f : Json → Option α) : List Json → Option (List α)
  | [] => some []
  | j :: js =>
    match f j, decodeList f js with
    | some a, some as => some (a :: as)
    | _, _ => none

/-- Decode an optional cell value: null yields missing. -/
def decodeCell (j : Json) : Option (Option String) :=
  match j with
  | Json.null => some none
  | Json.str s => some (some s)
  | _ => none

/-- Decode a row from a JSON object. -/
def decodeRow (j : Json) : Option Row :=
  match j with
  | Json.obj fields =>
    fields.foldr
      (fun e acc =>
        match decodeCell e.2, acc with
        | some v, some r => some ((e.1, v) :: r)
        | _, _ => none)
      (some [])
  | _ => none

/-- Decode one RuleResult from its structured export. -/
def decodeRuleResult (j : Json) : Option RuleResult :=
  match getField j "rule_name", getField j "status", getField j "metric",
      getField j "threshold", getField j "description", getField j "sample_rows" with
  | some jn, some jst, some jm, some jt, some jd, some jsr =>
    match asStr jn, (asStr jst).bind statusOfString, asStr jm, asStr jt, asStr jd,
        (asArr jsr).bind (decodeList decodeRow) with
    | some n, some st, some m, some t, some d, some sr =>
      some
        { rule_name := n, status := st, metric := m, threshold := t, description := d,
          sample_rows := sr }
    | _, _, _, _, _, _ => none
  | _, _, _, _, _, _ => none

/-- Parse the RuleResult entries back out of a structured report export. -/
def parseResults (j : Json) : Option (List RuleResult) :=
  (getField j "results").bind fun jr => (asArr jr).bind (decodeList decodeRuleResult)

/-- Translated from src/frontend/src/pages/RunHistory.jsx line 171: the Run
History progress bar value, `(run.summary.passed / run.summary.total_rules) * 100`. -/
def progressBarValue (sm : RunSummary) : ℚ :=
  ((sm.passed : ℚ) / (sm.total_rules : ℚ)) * 100

/-- Translated from src/frontend/src/pages/Dashboard.jsx: the component
state touched by the upload zone — pending file name, uploaded dataset and
run result. -/
structure DashState where
  file : Option String
  uploadedDataset : Option String
  runResult : Option String
deriving DecidableEq, Repr

/-- Translated from src/frontend/src/pages/Dashboard.jsx `handleDrop`
(lines 41-52): accept the dropped file only when its name ends with the
exact suffix ".csv"; otherwise show an error toast and leave the state
unchanged. Returns the new state and the error toast, if any. -/
def handleDrop (s : DashState) (dropped : Option String) : DashState × Option String :=
  match dropped with
  | some name =>
    if strEndsWith name ".csv" then
      ({ file := some name, uploadedDataset := none, runResult := none }, none)
    else (s, some "Please upload a CSV file")
  | none => (s, some "Please upload a CSV file")

/-- Translated from src/frontend/src/pages/Dashboard.jsx `handleFileSelect`
(lines 54-61): any chosen file is accepted with no name check. -/
def handleFileSelect (s : DashState) (selected : Option String) : DashState :=
  match selected with
  | some name => { file := some name, uploadedDataset := none, runResult := none }
  | none => s

/-- Counting results by the three statuses partitions the list. -/
theorem countStatus_partition (rs : List RuleResult) :
    countStatus rs .PASS + countStatus rs .FAIL + countStatus rs .SKIP = rs.length := by
  induction rs with
  | nil => rfl
  | cons r t ih =>
    unfold countStatus at *
    cases h : r.status <;> simp [List.countP_cons, h] <;> omega

/-- The Runner yields one result per rule. -/
theorem runAll_length (rules : List Rule) (ds : Dataset) (prior : Option Nat) :
    (runAll rules ds prior).length = rules.length := by
  simp [runAll]

/-- On a dataset with columns, `evaluate` returns the Runner's results. -/
theorem evaluate_ok (ds : Dataset) (prior : Option Nat) (h : ds.columns ≠ []) :
    evaluate ds prior = .ok (runAll canonicalRules ds prior) := by
  simp [evaluate, evaluateWith, List.isEmpty_iff, h]

/-- claim C2: the Scorer returns score = round(100 * passed / (passed + failed))
when passed + failed > 0 and score = 100 when every rule was skipped; skipped
rules are excluded from the denominator but counted in total_rules. -/
theorem claim_C2_scorer_formula (rs : List RuleResult) :
    (summarize rs).passed = countStatus rs .PASS ∧
    (summarize rs).failed = countStatus rs .FAIL ∧
    (summarize rs).skipped = countStatus rs .SKIP ∧
    (summarize rs).total_rules =
      countStatus rs .PASS + countStatus rs .FAIL + countStatus rs .SKIP ∧
    (summarize rs).score =
      (if 0 < countStatus rs .PASS + countStatus rs .FAIL then
        round ((100 * (countStatus rs .PASS : ℚ)) /
          ((countStatus rs .PASS : ℚ) + (countStatus rs .FAIL : ℚ)))
      else 100) := by
  refine ⟨rfl, rfl, rfl, ?_, rfl⟩
  exact (countStatus_partition rs).symm

/-- claim C3: every accepted dataset yields a summary with
passed + failed + skipped = total_rules = 10. -/
theorem claim_C3_count_invariant (ds : Dataset) (prior : Option Nat)
    (rs : List RuleResult) (h : evaluate ds prior = .ok rs) :
    (summarize rs).passed + (summarize rs).failed + (summarize rs).skipped =
      (summarize rs).total_rules ∧
    (summarize rs).total_rules = 10 := by
  have hlen : rs.length = 10 := by
    unfold evaluate evaluateWith at h
    split at h
    · exact absurd h (by simp)
    · cases h
      simp [runAll, canonicalRules]
  refine ⟨countStatus_partition rs, ?_⟩
  simpa [summarize] using hlen

/-- claim C4: a dataset with zero columns makes `evaluate` fail with an
InputError before any rule executes, so no RuleResult is produced. -/
theorem claim_C4_empty_columns_input_error (ds : Dataset) (prior : Option Nat)
    (h : ds.columns = []) :
    evaluate ds prior = .error (.InputError "dataset has no columns") := by
  simp [evaluate, evaluateWith, h]

/-- claim C4 witness. -/
theorem claim_C4_witness :
    ({ columns := [], rows := [] } : Dataset).columns = [] ∧
      evaluate { columns := [], rows := [] } none =
        .error (.InputError "dataset has no columns") :=
  ⟨rfl, claim_C4_empty_columns_input_error _ none rfl⟩

/-- claim C5: an accepted dataset yields exactly ten results in the fixed
canonical rule order. -/
theorem claim_C5_canonical_order (ds : Dataset) (prior : Option Nat)
    (rs : List RuleResult) (h : evaluate ds prior = .ok rs) :
    rs.length = 10 ∧
    rs.map (fun r => r.rule_name) =
      ["Null Rate", "Duplicate Rows", "Unique Key", "Numeric Range", "Email Format",
        "Phone/ZIP Format", "Date Validity", "Categorical Values", "Row Count Anomaly",
        "Outlier Detection"] := by
  unfold evaluate evaluateWith at h
  split at h
  · exact absurd h (by simp)
  · cases h
    exact ⟨rfl, rfl⟩

/-- claim C1: a rule whose internal logic errors is caught inside the
Runner and downgraded to a SKIP RuleResult naming the failure; the error
never reaches the caller and the full result sequence is still returned. -/
theorem claim_C1_failure_isolation (rules : List Rule) (ds : Dataset)
    (prior : Option Nat) (i : Nat) (r : Rule) (msg : String)
    (hcols : ds.columns ≠ []) (hr : rules[i]? = some r)
    (herr : r.eval ds prior = .error msg) :
    ∃ rs, evaluateWith rules ds prior = .ok rs ∧
      rs.length = rules.length ∧
      rs[i]? = some
        { rule_name := r.name, status := .SKIP, metric := "-", threshold := "-",
          description := "Rule execution failed: " ++ msg, sample_rows := [] } := by
  refine ⟨runAll rules ds prior, ?_, runAll_length rules ds prior, ?_⟩
  · simp [evaluateWith, List.isEmpty_iff, hcols]
  · simp [runAll, List.getElem?_map, hr, isolate, herr]

/-- A rule that always fails internally, used to exercise the Runner's
failure isolation. -/
def ruleAlwaysBoom : Rule :=
  { name := "Boom", eval := fun _ _ => .error "boom" }

/-- claim C1 witness. -/
theorem claim_C1_witness :
    ∃ rs, evaluateWith [ruleAlwaysBoom] { columns := ["a"], rows := [] } none = .ok rs ∧
      rs.length = 1 ∧
      rs[0]? = some
        { rule_name := "Boom", status := .SKIP, metric := "-", threshold := "-",
          description := "Rule execution failed: " ++ "boom", sample_rows := [] } :=
  claim_C1_failure_isolation [ruleAlwaysBoom] { columns := ["a"], rows := [] } none 0
    ruleAlwaysBoom "boom" (by simp) rfl rfl

/-- A dataset used as concrete input for the runner-level witnesses. -/
def dsSmall : Dataset :=
  { columns := ["order_id", "price"],
    rows := [[("order_id", some "1"), ("price", some "10")],
             [("order_id", some "2"), ("price", some "12")]] }

/-- claim C3 witness. -/
theorem claim_C3_witness :
    ∃ rs, evaluate dsSmall none = .ok rs ∧
      ((summarize rs).passed + (summarize rs).failed + (summarize rs).skipped =
          (summarize rs).total_rules ∧
        (summarize rs).total_rules = 10) :=
  ⟨runAll canonicalRules dsSmall none, evaluate_ok dsSmall none (by simp [dsSmall]),
    claim_C3_count_invariant dsSmall none _ (evaluate_ok dsSmall none (by simp [dsSmall]))⟩

/-- claim C5 witness. -/
theorem claim_C5_witness :
    ∃ rs, evaluate dsSmall none = .ok rs ∧
      (rs.length = 10 ∧
        rs.map (fun r => r.rule_name) =
          ["Null Rate", "Duplicate Rows", "Unique Key", "Numeric Range", "Email Format",
            "Phone/ZIP Format", "Date Validity", "Categorical Values", "Row Count Anomaly",
            "Outlier Detection"]) :=
  ⟨runAll canonicalRules dsSmall none, evaluate_ok dsSmall none (by simp [dsSmall]),
    claim_C5_canonical_order dsSmall none _ (evaluate_ok dsSmall none (by simp [dsSmall]))⟩

/-- claim C6: the Row Count Anomaly rule SKIPs with no prior row count and
otherwise FAILs exactly when the relative change of the row count against
the prior exceeds 30 percent. -/
theorem claim_C6_row_count_anomaly (ds : Dataset) :
    (isolate ds none ruleRowCountAnomaly).status = .SKIP ∧
    ∀ p : Nat, 0 < p →
      (isolate ds (some p) ruleRowCountAnomaly).status =
        (if 3 * (p : ℚ) < 10 * |((ds.row_count : ℚ) - (p : ℚ))| then Status.FAIL
         else Status.PASS) := by
  refine ⟨rfl, fun p hp => ?_⟩
  have hpq : (0 : ℚ) < (p : ℚ) := by exact_mod_cast hp
  have hiff : ((3 : ℚ) / 10 < |((ds.row_count : ℚ) - (p : ℚ)) / (p : ℚ)|) ↔
      (3 * (p : ℚ) < 10 * |((ds.row_count : ℚ) - (p : ℚ))|) := by
    rw [abs_div, abs_of_pos hpq, div_lt_div_iff₀ (by norm_num) hpq]
    constructor <;> intro h <;> nlinarith
  simp only [isolate, ruleRowCountAnomaly]
  rw [if_congr hiff rfl rfl]

/-- Dataset of 145 one-column rows, current run for the anomaly witness. -/
def ds145 : Dataset :=
  { columns := ["price"], rows := List.replicate 145 [("price", some "1")] }

/-- Dataset of 120 one-column rows, current run for the anomaly witness. -/
def ds120 : Dataset :=
  { columns := ["price"], rows := List.replicate 120 [("price", some "1")] }

/-- claim C6 witness: prior 100 with 145 rows FAILs, with 120 rows PASSes,
and with no prior the rule SKIPs. -/
theorem claim_C6_witness :
    (0 : Nat) < 100 ∧
    (isolate ds145 none ruleRowCountAnomaly).status = .SKIP ∧
    (isolate ds145 (some 100) ruleRowCountAnomaly).status = .FAIL ∧
    (isolate ds120 (some 100) ruleRowCountAnomaly).status = .PASS := by
  refine ⟨by norm_num, (claim_C6_row_count_anomaly ds145).1, ?_, ?_⟩
  · rw [(claim_C6_row_count_anomaly ds145).2 100 (by norm_num)]
    have : (ds145.row_count : ℚ) = 145 := by simp [ds145, Dataset.row_count]
    rw [this, if_pos (by rw [abs_of_nonneg (by norm_num)]; norm_num)]
  · rw [(claim_C6_row_count_anomaly ds120).2 100 (by norm_num)]
    have : (ds120.row_count : ℚ) = 120 := by simp [ds120, Dataset.row_count]
    rw [this, if_neg (by rw [abs_of_nonneg (by norm_num)]; norm_num)]

/-- claim C7: with a detected numeric column, the Outlier Detection rule
FAILs exactly when some value of that column falls outside the IQR bounds
[Q1 - 1.5*IQR, Q3 + 1.5*IQR]. -/
theorem claim_C7_outlier_iqr (ds : Dataset) (c : String)
    (h : findColumn ds numericFrags = some c) :
    (isolate ds none ruleOutlierDetection).status = .FAIL ↔
      ∃ v ∈ numericValues ds c,
        v < outlierLower (numericValues ds c) ∨ outlierUpper (numericValues ds c) < v := by
  simp only [isolate, ruleOutlierDetection, h]
  constructor
  · intro hf
    by_cases hb : hasOutlier (numericValues ds c)
    · simpa [hasOutlier, List.any_eq_true] using hb
    · simp [hb] at hf
  · intro hex
    have hb : hasOutlier (numericValues ds c) = true := by
      simpa [hasOutlier, List.any_eq_true] using hex
    simp [hb]

/-- The dataset of the spec's outlier example: a price column with values
[10, 12, 11, 13, 12, 11, 1000]. -/
def dsOutlier : Dataset :=
  { columns := ["price"],
    rows := [[("price", some "10")], [("price", some "12")], [("price", some "11")],
             [("price", some "13")], [("price", some "12")], [("price", some "11")],
             [("price", some "1000")]] }

/-- claim C7 witness: on the example values Q1 = 11, Q3 = 12.5, the upper
bound is 14.75, 1000 is flagged and the rule FAILs. -/
theorem claim_C7_witness :
    findColumn dsOutlier numericFrags = some "price" ∧
    numericValues dsOutlier "price" = [10, 12, 11, 13, 12, 11, 1000] ∧
    quantile (List.insertionSort (fun a b => a ≤ b) (numericValues dsOutlier "price"))
        (1 / 4) = 11 ∧
    quantile (List.insertionSort (fun a b => a ≤ b) (numericValues dsOutlier "price"))
        (3 / 4) = 25 / 2 ∧
    outlierUpper (numericValues dsOutlier "price") = 59 / 4 ∧
    (isolate dsOutlier none ruleOutlierDetection).status = .FAIL := by
  have hcol : findColumn dsOutlier numericFrags = some "price" := by decide
  have hvals : numericValues dsOutlier "price" = [10, 12, 11, 13, 12, 11, 1000] := by decide
  have hsort :
      List.insertionSort (fun a b => a ≤ b) (numericValues dsOutlier "price") =
        [10, 11, 11, 12, 12, 13, 1000] := by
    rw [hvals]; rfl
  have hq1 :
      quantile (List.insertionSort (fun a b => a ≤ b) (numericValues dsOutlier "price"))
        (1 / 4) = 11 := by
    rw [hsort]
    have hfloor : (⌊(1 : ℚ) / 4 * (((7 : Nat) : ℚ) - 1)⌋) = 1 := by norm_num
    simp only [quantile, List.length_cons, List.length_nil, hfloor, Int.toNat_one]
    norm_num [List.getD]
  have hq3 :
      quantile (List.insertionSort (fun a b => a ≤ b) (numericValues dsOutlier "price"))
        (3 / 4) = 25 / 2 := by
    rw [hsort]
    have hfloor : (⌊(3 : ℚ) / 4 * (((7 : Nat) : ℚ) - 1)⌋) = 4 := by norm_num
    simp only [quantile, List.length_cons, List.length_nil, hfloor,
      show (Int.toNat 4) = 4 from rfl]
    norm_num [List.getD]
  have hupper : outlierUpper (numericValues dsOutlier "price") = 59 / 4 := by
    simp only [outlierUpper, hq1, hq3]
    norm_num
  refine ⟨hcol, hvals, hq1, hq3, hupper, ?_⟩
  refine (claim_C7_outlier_iqr dsOutlier "price" hcol).mpr ⟨1000, ?_, Or.inr ?_⟩
  · rw [hvals]; simp
  · rw [hupper]; norm_num

/-- Decoding inverts cell encoding. -/
theorem decodeCell_encodeCell (v : Option String) : decodeCell (encodeCell v) = some v := by
  cases v <;> rfl

/-- Decoding inverts row encoding. -/
theorem decodeRow_encodeRow (r : Row) : decodeRow (encodeRow r) = some r := by
  induction r with
  | nil => rfl
  | cons e t ih =>
    have ht := ih
    simp only [encodeRow, decodeRow] at ht
    simp only [encodeRow, List.map_cons, decodeRow, List.foldr_cons, decodeCell_encodeCell]
    rw [ht]

/-- Decoding inverts status rendering. -/
theorem statusOfString_statusToString (st : Status) :
    statusOfString (statusToString st) = some st := by
  cases st <;> rfl

/-- `decodeList` inverts element-wise encoding. -/
theorem decodeList_map {α : Type} (f : α → Json) (g : Json → Option α)
    (hg : ∀ a, g (f a) = some a) (l : List α) : decodeList g (l.map f) = some l := by
  induction l with
  | nil => rfl
  | cons a t ih => simp [decodeList, hg, ih]

/-- Decoding inverts RuleResult encoding. -/
theorem decodeRuleResult_encodeRuleResult (r : RuleResult) :
    decodeRuleResult (encodeRuleResult r) = some r := by
  simp [decodeRuleResult, encodeRuleResult, getField, asStr, asArr,
    statusOfString_statusToString, decodeList_map encodeRow decodeRow decodeRow_encodeRow]

/-- claim C8: parsing the structured export recovers every RuleResult field
for field; formatJSON is lossless over the Run's results. -/
theorem claim_C8_report_roundtrip (run : Run) :
    parseResults (formatJSON run) = some run.results := by
  simp [parseResults, formatJSON, getField, asArr,
    decodeList_map encodeRuleResult decodeRuleResult decodeRuleResult_encodeRuleResult]

/-- claim C9: on the Run History page the progress bar shows
100 * passed / total_rules, not the score; with a skipped rule and at least
one pass the bar sits strictly below the displayed score, since the score
drops skipped rules from its denominator while the bar does not. -/
theorem claim_C9_progress_below_score (rs : List RuleResult) (hlen : rs.length = 10)
    (hp : 0 < (summarize rs).passed) (hs : 0 < (summarize rs).skipped) :
    progressBarValue (summarize rs) =
      ((summarize rs).passed : ℚ) / ((summarize rs).total_rules : ℚ) * 100 ∧
    progressBarValue (summarize rs) < ((summarize rs).score : ℚ) := by
  refine ⟨rfl, ?_⟩
  have hp' : 0 < countStatus rs .PASS := hp
  have hs' : 0 < countStatus rs .SKIP := hs
  have hsum : countStatus rs .PASS + countStatus rs .FAIL + countStatus rs .SKIP = 10 :=
    (countStatus_partition rs).trans hlen
  set p := countStatus rs .PASS with hpdef
  set f := countStatus rs .FAIL with hfdef
  have hpf9 : p + f ≤ 9 := by omega
  have hpf0 : 0 < p + f := by omega
  have hq1 : (1 : ℚ) ≤ (p : ℚ) := by exact_mod_cast hp'
  have hq9 : (p : ℚ) + (f : ℚ) ≤ 9 := by exact_mod_cast hpf9
  have hq0 : (0 : ℚ) < (p : ℚ) + (f : ℚ) := by exact_mod_cast hpf0
  have hscore : (summarize rs).score = round ((100 * (p : ℚ)) / ((p : ℚ) + (f : ℚ))) := by
    simp only [summarize, ← hpdef, ← hfdef, if_pos hpf0]
  have hbar : progressBarValue (summarize rs) = (p : ℚ) / 10 * 100 := by
    simp only [progressBarValue, summarize, ← hpdef, hlen]
    norm_num
  have hb : 10 * (p : ℚ) + 10 / 9 ≤ (100 * (p : ℚ)) / ((p : ℚ) + (f : ℚ)) := by
    rw [le_div_iff₀ hq0]
    nlinarith
  have hr := abs_sub_round ((100 * (p : ℚ)) / ((p : ℚ) + (f : ℚ)))
  rw [abs_le] at hr
  rw [hbar, hscore]
  have hup := hr.2
  have hgoal : (p : ℚ) / 10 * 100 = 10 * (p : ℚ) := by ring
  rw [hgoal]
  linarith [hb, hup]

/-- A list of ten results with five passes, two failures and three skips,
used as the concrete Run History witness. -/
def rsMixed : List RuleResult :=
  [{ rule_name := "r1", status := .PASS, metric := "", threshold := "", description := "",
     sample_rows := [] },
   { rule_name := "r2", status := .PASS, metric := "", threshold := "", description := "",
     sample_rows := [] },
   { rule_name := "r3", status := .PASS, metric := "", threshold := "", description := "",
     sample_rows := [] },
   { rule_name := "r4", status := .PASS, metric := "", threshold := "", description := "",
     sample_rows := [] },
   { rule_name := "r5", status := .PASS, metric := "", threshold := "", description := "",
     sample_rows := [] },
   { rule_name := "r6", status := .FAIL, metric := "", threshold := "", description := "",
     sample_rows := [] },
   { rule_name := "r7", status := .FAIL, metric := "", threshold := "", description := "",
     sample_rows := [] },
   { rule_name := "r8", status := .SKIP, metric := "", threshold := "", description := "",
     sample_rows := [] },
   { rule_name := "r9", status := .SKIP, metric := "", threshold := "", description := "",
     sample_rows := [] },
   { rule_name := "r10", status := .SKIP, metric := "", threshold := "", description := "",
     sample_rows := [] }]

/-- claim C9 witness. -/
theorem claim_C9_witness :
    rsMixed.length = 10 ∧ 0 < (summarize rsMixed).passed ∧ 0 < (summarize rsMixed).skipped ∧
    (progressBarValue (summarize rsMixed) =
        ((summarize rsMixed).passed : ℚ) / ((summarize rsMixed).total_rules : ℚ) * 100 ∧
      progressBarValue (summarize rsMixed) < ((summarize rsMixed).score : ℚ)) :=
  ⟨rfl, by decide, by decide,
    claim_C9_progress_below_score rsMixed rfl (by decide) (by decide)⟩

/-- claim C10: a dropped file is accepted as the pending file exactly when
its name ends with the exact lowercase suffix ".csv" (otherwise an error
toast is shown and the state is unchanged), while a file chosen through the
browse dialog is accepted regardless of its name. -/
theorem claim_C10_drop_requires_csv (s : DashState) (name : String) :
    (strEndsWith name ".csv" = true →
      handleDrop s (some name) =
        ({ file := some name, uploadedDataset := none, runResult := none }, none)) ∧
    (strEndsWith name ".csv" = false →
      handleDrop s (some name) = (s, some "Please upload a CSV file")) ∧
    handleFileSelect s (some name) =
      { file := some name, uploadedDataset := none, runResult := none } := by
  refine ⟨fun h => ?_, fun h => ?_, rfl⟩
  · simp [handleDrop, h]
  · simp [handleDrop, h]

/-- A dashboard state with a pending file, uploaded dataset and run result,
used to observe that a rejected drop leaves everything unchanged. -/
def stBusy : DashState :=
  { file := some "old.csv", uploadedDataset := some "ds-1", runResult := some "run-1" }

/-- claim C10 witness: "data.csv" is accepted, "notes.txt" and the
uppercase "DATA.CSV" are rejected with the toast and unchanged state, and
the browse dialog accepts "notes.txt". -/
theorem claim_C10_witness :
    strEndsWith "data.csv" ".csv" = true ∧
    strEndsWith "notes.txt" ".csv" = false ∧
    strEndsWith "DATA.CSV" ".csv" = false ∧
    handleDrop stBusy (some "data.csv") =
      ({ file := some "data.csv", uploadedDataset := none, runResult := none }, none) ∧
    handleDrop stBusy (some "notes.txt") = (stBusy, some "Please upload a CSV file") ∧
    handleDrop stBusy (some "DATA.CSV") = (stBusy, some "Please upload a CSV file") ∧
    handleFileSelect stBusy (some "notes.txt") =
      { file := some "notes.txt", uploadedDataset := none, runResult := none } :=
  ⟨by decide, by decide, by decide,
    (claim_C10_drop_requires_csv stBusy "data.csv").1 (by decide),
    (claim_C10_drop_requires_csv stBusy "notes.txt").2.1 (by decide),
    (claim_C10_drop_requires_csv stBusy "DATA.CSV").2.1 (by decide),
    (claim_C10_drop_requires_csv stBusy "notes.txt").2.2⟩
